import Mathlib

/-!
Verification development for libwatchman's `watchman.c`.

The source is a C client for the watchman daemon's line-delimited JSON
protocol.  We shallowly embed the pure logic of the file: the JSON value
tree (the jansson library, an external collaborator, modelled by an
inductive type together with the handful of accessors the source calls),
the query-expression algebra and its compiler `to_json`, the fields codec
`fields_to_json`, the response reader `watchman_read`, the generic
response validator `watchman_read_and_handle_errors`, and the two result
decoders (`watchman_watch_list`, `watchman_do_query`).  Stateful C code
(stream reads, allocation, the goto-based error paths) becomes explicit
value passing: a function that in C returns a possibly-NULL pointer and
fills a `watchman_error_t` becomes a Lean function returning a pair of
options, so that "returned NULL and set the error" is directly statable.

The repository ships only `watchman.c`; the header `watchman.h` with the
struct and enum declarations is not under `src/`.  Where a definition
depends on those declarations (struct fields of the result types, the
numeric values of the enum constants), it is modelled from the spec and
the doc comment says so.
-/

set_option linter.constructorNameAsVariable false

namespace Libwatchman

/-- Modelled from the spec: the out-of-scope JSON primitive (jansson's
`json_t`), "a JSON value tree type with string/int/bool/array/object
variants".  Objects are ordered association lists, matching jansson's
key lookup discipline as used by the source (first binding wins). -/
inductive json_t where
  | jstring (s : String)
  | jinteger (n : Int)
  | jbool (b : Bool)
  | jarray (elems : List json_t)
  | jobject (entries : List (String × json_t))

/-- jansson `json_is_object`: NULL-safe check (a C NULL pointer is `none`). -/
def json_is_object : Option json_t → Bool
  | some (.jobject _) => true
  | _ => false

/-- jansson `json_is_array`, NULL-safe. -/
def json_is_array : Option json_t → Bool
  | some (.jarray _) => true
  | _ => false

/-- jansson `json_is_string`, NULL-safe. -/
def json_is_string : Option json_t → Bool
  | some (.jstring _) => true
  | _ => false

/-- jansson `json_is_boolean` (true or false value), NULL-safe. -/
def json_is_boolean : Option json_t → Bool
  | some (.jbool _) => true
  | _ => false

/-- jansson `json_is_true`, NULL-safe. -/
def json_is_true : Option json_t → Bool
  | some (.jbool b) => b
  | _ => false

/-- jansson `json_string_value`: the string payload, or NULL (`none`) when
the value is not a string. -/
def json_string_value : Option json_t → Option String
  | some (.jstring s) => some s
  | _ => none

/-- jansson `json_integer_value`: the integer payload, or 0 when the value
is not an integer (jansson's documented behaviour). -/
def json_integer_value : Option json_t → Int
  | some (.jinteger n) => n
  | _ => 0

/-- jansson `json_object_get`: look a key up in an object; NULL (`none`)
when the key is absent or the value is not an object. -/
def json_object_get (j : json_t) (key : String) : Option json_t :=
  match j with
  | .jobject entries => (entries.find? (fun e => e.1 == key)).map (·.2)
  | _ => none

/-- Elements of a JSON array; the source iterates `json_array_get` over
indices `0 ≤ i < json_array_size`, which visits exactly this list.  A
non-array (or NULL) yields the empty list, matching `json_array_size = 0`
on such values. -/
def json_array_elems : Option json_t → List json_t
  | some (.jarray l) => l
  | _ => []

/-- jansson `json_array_size`, NULL-safe. -/
def json_array_size (j : Option json_t) : Nat :=
  (json_array_elems j).length

/-- jansson `json_dumps`: serialize a value.  The source only ever feeds
the result into `%s` slots of diagnostic messages; string escaping and
the exact whitespace of the dump format are abbreviated (no theorem below
depends on dump text). -/
def json_dumps : json_t → String
  | .jstring s => "\"" ++ s ++ "\""
  | .jinteger n => toString n
  | .jbool b => if b then "true" else "false"
  | .jarray l =>
      "[" ++ String.intercalate "," (l.attach.map (fun e => json_dumps e.1)) ++ "]"
  | .jobject l =>
      "\x7b" ++
        String.intercalate ","
          (l.attach.map (fun e => "\"" ++ e.1.1 ++ "\":" ++ json_dumps e.1.2)) ++
      "\x7d"
decreasing_by
  all_goals simp_wf
  · have h := List.sizeOf_lt_of_mem e.2
    omega
  · have h := List.sizeOf_lt_of_mem e.2
    have h2 : ∀ p : String × json_t, sizeOf p.2 < sizeOf p := by
      intro p
      cases p
      simp
    have h3 := h2 e.1
    omega

/-- The C call `json_dumps` applied to a possibly-NULL pointer inside a
`printf`-style `%s` slot; glibc renders a NULL string as `(null)`. -/
def json_dumps_opt : Option json_t → String
  | some j => json_dumps j
  | none => "(null)"

/-- `watchman_error_t`: the source's error record, a single message
string filled by `watchman_err`. -/
structure watchman_error_t where
  message : String
deriving DecidableEq, Repr

/-- Modelled from the spec: `enum watchman_clockspec` of the missing
header, "none / observed-clock / mtime / ctime"; the numeric values
follow the `clockspec_str` table of the source, whose index 0 slot is
NULL, so none = 0, oclock = 1, mtime = 2, ctime = 3. -/
inductive watchman_clockspec where
  | specDefault
  | oclock
  | mtime
  | ctime
deriving DecidableEq, Repr

/-- Numeric value of a clockspec enum constant (see `clockspec_str`). -/
def clockspec_index : watchman_clockspec → Nat
  | .specDefault => 0
  | .oclock => 1
  | .mtime => 2
  | .ctime => 3

/-- Modelled from the spec: `enum watchman_basename` of the missing
header, "none / basename / wholename"; numeric values follow the
`basename_str` table (index 0 slot NULL). -/
inductive watchman_basename where
  | noScope
  | basename
  | wholename
deriving DecidableEq, Repr

/-- Numeric value of a basename enum constant (see `basename_str`). -/
def basename_index : watchman_basename → Nat
  | .noScope => 0
  | .basename => 1
  | .wholename => 2

/-- The value stored in `watchman_since_expression`'s union `t`: a
cursor string (`is_time_t = 0`) or a `time_t` timestamp (`is_time_t =
1`).  The C discriminant flag `is_time_t` is the constructor tag. -/
inductive since_value where
  | cursor (since : String)
  | timeT (time : Int)
deriving DecidableEq, Repr

/-- Modelled from the spec: `watchman_expression_t` of the missing
header, the tagged variant tree of §4.2 realized as a sum type (as the
spec's design note recommends).  Constructor order matches the
`enum watchman_expression_type` order implied by the source's `ty_str`
table.  The C union members `match_expr.basename` and
`name_expr.basename` both denote the one basename field the node
carries here.  Keywords force renamings: `wnot`, `wtrue`, `wfalse`,
`wmatch`, `wtype` stand for the `not`, `true`, `false`, `match`, `type`
variants. -/
inductive watchman_expression_t where
  | allof (clauses : List watchman_expression_t)
  | anyof (clauses : List watchman_expression_t)
  | wnot (clause : watchman_expression_t)
  | wtrue
  | wfalse
  | since (value : since_value) (clockspec : watchman_clockspec)
  | suffix (s : String)
  | wmatch (pat : String) (basename : watchman_basename)
  | imatch (pat : String) (basename : watchman_basename)
  | pcre (pat : String) (basename : watchman_basename)
  | ipcre (pat : String) (basename : watchman_basename)
  | name (names : List String) (basename : watchman_basename)
  | iname (names : List String) (basename : watchman_basename)
  | wtype (c : Char)
  | empty
  | wexists

/-- The numeric tag `expr->ty` of a node (modelled from the spec: enum
constant order of the missing header, matching `ty_str`). -/
def expression_ty : watchman_expression_t → Nat
  | .allof _ => 0
  | .anyof _ => 1
  | .wnot _ => 2
  | .wtrue => 3
  | .wfalse => 4
  | .since _ _ => 5
  | .suffix _ => 6
  | .wmatch _ _ => 7
  | .imatch _ _ => 8
  | .pcre _ _ => 9
  | .ipcre _ _ => 10
  | .name _ _ => 11
  | .iname _ _ => 12
  | .wtype _ => 13
  | .empty => 14
  | .wexists => 15

/-- The source's `ty_str` table: expression-type tag strings, indexed by
the expression type enum. -/
def ty_str : List String :=
  ["allof", "anyof", "not", "true", "false", "since", "suffix", "match",
   "imatch", "pcre", "ipcre", "name", "iname", "type", "empty", "exists"]

/-- The source's `clockspec_str` table (index 0 is NULL in C). -/
def clockspec_str : List (Option String) :=
  [none, some "oclock", some "mtime", some "ctime"]

/-- The source's `basename_str` table (index 0 is NULL in C). -/
def basename_str : List (Option String) :=
  [none, some "basename", some "wholename"]

/-- The source's `json_string_from_char`: a one-character JSON string. -/
def json_string_from_char (c : Char) : json_t :=
  .jstring (String.mk [c])

/-- The source's `json_string_or_array`: a bare string when there is
exactly one item, otherwise an array of strings.  The C `(int nr,
char **items)` pair is modelled as the list of the `nr` items. -/
def json_string_or_array (items : List String) : json_t :=
  if items.length = 1 then .jstring (items.headD "")
  else .jarray (items.map json_t.jstring)

/-- The source's `since_to_json`: the elements appended after the
`"since"` tag.  Note the source's `if (expr->e.since_expr.clockspec)`
branch indexes `ty_str` — not `clockspec_str` — with the clockspec enum
value. -/
def since_to_json (value : since_value) (clockspec : watchman_clockspec) :
    List json_t :=
  (match value with
    | .timeT t => [json_t.jinteger t]
    | .cursor s => [json_t.jstring s]) ++
  (if clockspec ≠ .specDefault then
    [json_t.jstring (ty_str.getD (clockspec_index clockspec) "")]
  else [])

/-- The trailing basename element of the match/name `switch` arms of the
source's `to_json`: `if (expr->e.match_expr.basename)` appends
`basename_str[basename]`. -/
def basename_arg (basename : watchman_basename) : List json_t :=
  if basename ≠ .noScope then
    [json_t.jstring ((basename_str.getD (basename_index basename) none).getD "")]
  else []

mutual

/-- The source's `to_json`: compile an expression tree to the daemon's
nested-array grammar.  Each case mirrors the corresponding `switch` arm;
the imperative `json_array_append_new` calls become list construction,
and the common first element `json_string(ty_str[expr->ty])` is spelled
per arm (with the arm's `expression_ty` tag) so that the recursion stays
structural. -/
def to_json : watchman_expression_t → json_t
  | .allof clauses =>
    .jarray (json_t.jstring (ty_str.getD (expression_ty (.allof clauses)) "") ::
      to_json_clauses clauses)
  | .anyof clauses =>
    .jarray (json_t.jstring (ty_str.getD (expression_ty (.anyof clauses)) "") ::
      to_json_clauses clauses)
  | .wnot clause =>
    .jarray [json_t.jstring (ty_str.getD (expression_ty (.wnot clause)) ""),
      to_json clause]
  | .wtrue => .jarray [json_t.jstring (ty_str.getD (expression_ty .wtrue) "")]
  | .wfalse => .jarray [json_t.jstring (ty_str.getD (expression_ty .wfalse) "")]
  | .since value clockspec =>
    .jarray (json_t.jstring (ty_str.getD (expression_ty (.since value clockspec)) "") ::
      since_to_json value clockspec)
  | .suffix s =>
    .jarray [json_t.jstring (ty_str.getD (expression_ty (.suffix s)) ""),
      json_t.jstring s]
  | .wmatch pat basename =>
    .jarray (json_t.jstring (ty_str.getD (expression_ty (.wmatch pat basename)) "") ::
      json_t.jstring pat :: basename_arg basename)
  | .imatch pat basename =>
    .jarray (json_t.jstring (ty_str.getD (expression_ty (.imatch pat basename)) "") ::
      json_t.jstring pat :: basename_arg basename)
  | .pcre pat basename =>
    .jarray (json_t.jstring (ty_str.getD (expression_ty (.pcre pat basename)) "") ::
      json_t.jstring pat :: basename_arg basename)
  | .ipcre pat basename =>
    .jarray (json_t.jstring (ty_str.getD (expression_ty (.ipcre pat basename)) "") ::
      json_t.jstring pat :: basename_arg basename)
  | .name names basename =>
    .jarray (json_t.jstring (ty_str.getD (expression_ty (.name names basename)) "") ::
      json_string_or_array names :: basename_arg basename)
  | .iname names basename =>
    .jarray (json_t.jstring (ty_str.getD (expression_ty (.iname names basename)) "") ::
      json_string_or_array names :: basename_arg basename)
  | .wtype c =>
    .jarray [json_t.jstring (ty_str.getD (expression_ty (.wtype c)) ""),
      json_string_from_char c]
  | .empty => .jarray [json_t.jstring (ty_str.getD (expression_ty .empty) "")]
  | .wexists => .jarray [json_t.jstring (ty_str.getD (expression_ty .wexists) "")]

/-- The clause loop of the allof/anyof arms: compile each child in
order. -/
def to_json_clauses : List watchman_expression_t → List json_t
  | [] => []
  | clause :: rest => to_json clause :: to_json_clauses rest

end

/-! Expression constructors.  `alloc_expr` calloc-zeroes the node before
the constructor fills individual fields, so any field a constructor does
not write holds the zero of its type (enum value 0, i.e. `specDefault` /
`noScope`). -/

/-- The source's `watchman_since_expression`.  `assert(since)` only
rules out a NULL pointer, which a Lean `String` cannot be. -/
def watchman_since_expression (since : String) (spec : watchman_clockspec) :
    watchman_expression_t :=
  .since (.cursor since) spec

/-- The source's `watchman_since_expression_time_t`. -/
def watchman_since_expression_time_t (time : Int) (spec : watchman_clockspec) :
    watchman_expression_t :=
  .since (.timeT time) spec

/-- The source's `watchman_not_expression`: its whole body is `return ;`
— it builds nothing and returns no node.  The absent return value of the
non-void C function is `none`. -/
def watchman_not_expression (expression : watchman_expression_t) :
    Option watchman_expression_t :=
  none

/-- The source's `watchman_allof_expression` (the `UNION_EXPR` macro):
`assert(nr)` aborts on an empty clause list, modelled as `none`; the C
`(int nr, watchman_expression_t **expressions)` pair is the list of the
`nr` clauses. -/
def watchman_allof_expression (expressions : List watchman_expression_t) :
    Option watchman_expression_t :=
  if expressions.isEmpty then none else some (.allof expressions)

/-- The source's `watchman_anyof_expression` (the `UNION_EXPR` macro). -/
def watchman_anyof_expression (expressions : List watchman_expression_t) :
    Option watchman_expression_t :=
  if expressions.isEmpty then none else some (.anyof expressions)

/-- The source's `watchman_empty_expression` (the `STATIC_EXPR` macro):
returns the static marker node. -/
def watchman_empty_expression : watchman_expression_t := .empty

/-- The source's `watchman_true_expression`. -/
def watchman_true_expression : watchman_expression_t := .wtrue

/-- The source's `watchman_false_expression`. -/
def watchman_false_expression : watchman_expression_t := .wfalse

/-- The source's `watchman_exists_expression`. -/
def watchman_exists_expression : watchman_expression_t := .wexists

/-- The source's `watchman_suffix_expression`. -/
def watchman_suffix_expression (suffix : String) : watchman_expression_t :=
  .suffix suffix

/-- The source's `watchman_match_expression` (the `MATCH_EXPR` macro):
stores both the pattern and the basename argument. -/
def watchman_match_expression (pat : String) (basename : watchman_basename) :
    watchman_expression_t :=
  .wmatch pat basename

/-- The source's `watchman_imatch_expression`. -/
def watchman_imatch_expression (pat : String) (basename : watchman_basename) :
    watchman_expression_t :=
  .imatch pat basename

/-- The source's `watchman_pcre_expression`. -/
def watchman_pcre_expression (pat : String) (basename : watchman_basename) :
    watchman_expression_t :=
  .pcre pat basename

/-- The source's `watchman_ipcre_expression`. -/
def watchman_ipcre_expression (pat : String) (basename : watchman_basename) :
    watchman_expression_t :=
  .ipcre pat basename

/-- The source's `watchman_names_expression` (the `NAMES_EXPR` macro):
`assert(nr)` aborts on an empty name list (`none` here); the body then
stores `nr` and the strdup'd names — and nothing else, so the node's
basename field keeps the calloc zero `noScope`: the `basename` argument
is accepted but never stored. -/
def watchman_names_expression (names : List String)
    (basename : watchman_basename) : Option watchman_expression_t :=
  if names.isEmpty then none else some (.name names .noScope)

/-- The source's `watchman_inames_expression` (the `NAMES_EXPR` macro);
same shape as `watchman_names_expression`, including the dropped
`basename` argument. -/
def watchman_inames_expression (names : List String)
    (basename : watchman_basename) : Option watchman_expression_t :=
  if names.isEmpty then none else some (.iname names .noScope)

/-- The source's `watchman_name_expression` (the `NAME_EXPR` macro):
delegates to `watchman_names_expression` with a one-element list. -/
def watchman_name_expression (name : String) (basename : watchman_basename) :
    Option watchman_expression_t :=
  watchman_names_expression [name] basename

/-- The source's `watchman_iname_expression` (the `NAME_EXPR` macro). -/
def watchman_iname_expression (name : String) (basename : watchman_basename) :
    Option watchman_expression_t :=
  watchman_inames_expression [name] basename

/-- The source's `watchman_type_expression`. -/
def watchman_type_expression (c : Char) : watchman_expression_t :=
  .wtype c

/-! The fields codec. -/

/-- The source's `fields_str` table: field names in declaration order. -/
def fields_str : List String :=
  ["name", "exists", "cclock", "oclock", "ctime", "ctime_ms", "ctime_us",
   "ctime_ns", "ctime_f", "mtime", "mtime_ms", "mtime_us", "mtime_ns",
   "mtime_f", "size", "uid", "gid", "ino", "dev", "nlink", "new"]

/-- Modelled from the spec: `WATCHMAN_FIELD_NAME` of the missing header;
a `FieldsMask` is "a set of named result-field flags" whose bits follow
the declaration order of `fields_str`, so the first flag is bit 0. -/
def WATCHMAN_FIELD_NAME : Nat := 1

/-- Modelled from the spec: `WATCHMAN_FIELD_EXISTS`, the second flag. -/
def WATCHMAN_FIELD_EXISTS : Nat := 2

/-- Modelled from the spec: `WATCHMAN_FIELD_NEWER` ("new"), the last of
the 21 flags, so bit 20.  The source's loop bound. -/
def WATCHMAN_FIELD_NEWER : Nat := 2 ^ 20

/-- The loop body of the source's `fields_to_json`: `mask` starts at 1
and doubles while `mask <= WATCHMAN_FIELD_NEWER`, stepping `i` through
`fields_str` in declaration order; the 21-entry table is exactly the
masks the loop admits, so the recursion walks the remaining table. -/
def fields_loop (fields : Nat) : Nat → List String → List json_t
  | _, [] => []
  | mask, s :: rest =>
    (if fields &&& mask != 0 then [json_t.jstring s] else []) ++
      fields_loop fields (mask * 2) rest

/-- The source's `fields_to_json`. -/
def fields_to_json (fields : Nat) : json_t :=
  .jarray (fields_loop fields 1 fields_str)

/-- The declaration-order table of field bits and names: the spec's
fixed emission-order table of §4.3, each name paired with its mask. -/
def field_decl_table : List (Nat × String) :=
  [(1, "name"), (2, "exists"), (4, "cclock"), (8, "oclock"),
   (16, "ctime"), (32, "ctime_ms"), (64, "ctime_us"), (128, "ctime_ns"),
   (256, "ctime_f"), (512, "mtime"), (1024, "mtime_ms"),
   (2048, "mtime_us"), (4096, "mtime_ns"), (8192, "mtime_f"),
   (16384, "size"), (32768, "uid"), (65536, "gid"), (131072, "ino"),
   (262144, "dev"), (524288, "nlink"), (1048576, "new")]

/-- Pair each table entry with the doubling mask the loop reaches it at. -/
def mask_pairs : Nat → List String → List (Nat × String)
  | _, [] => []
  | mask, s :: rest => (mask, s) :: mask_pairs (mask * 2) rest

/-! The protocol codec.  The byte stream and jansson's incremental
parser are external, so `watchman_read` is parameterized by the outcome
jansson reports for the bytes in front of the cursor: `loadf_result` is
what `json_loadf(conn->fp, JSON_DISABLE_EOF_CHECK, &jerror)` returns
(`none` for an unparseable or incomplete value, in which case
`jerror_text` is jansson's diagnostic), and `next_byte` is what the
following `fgetc` returns (`none` for EOF). -/

/-- The source's `watchman_read`: parse one JSON value, then demand that
the very next byte is a newline.  A parse failure records an error but
falls through to the newline check; a missing newline records an error,
drops any parsed value (`json_decref`) and returns NULL.  The returned
pair is (the C return value, the error the callee filled in, if any). -/
def watchman_read (loadf_result : Option json_t) (next_byte : Option Char)
    (jerror_text : String) : Option json_t × Option watchman_error_t :=
  let parse_err : Option watchman_error_t :=
    if loadf_result.isNone then
      some ⟨"Got unparseable or empty result from watchman: " ++ jerror_text⟩
    else none
  if next_byte ≠ some '\n' then
    (none, some ⟨"No newline at end of reply"⟩)
  else
    (loadf_result, parse_err)

/-- The source's `watchman_read_and_handle_errors`: read one value; it
must be an object; an `error` key makes the command fail with the
daemon text spliced into the message.  Returns (the C `int` result — 0
success, 1 failure — and the error record, if filled). -/
def watchman_read_and_handle_errors (loadf_result : Option json_t)
    (next_byte : Option Char) (jerror_text : String) :
    Int × Option watchman_error_t :=
  match watchman_read loadf_result next_byte jerror_text with
  | (none, e) => (1, e)
  | (some obj, _) =>
    if ¬ json_is_object (some obj) then
      (1, some ⟨"Got non-object result from watchman : " ++ json_dumps obj⟩)
    else
      match json_object_get obj "error" with
      | some error_json =>
        (1, some ⟨"Got error result from watchman : " ++
          ((json_string_value (some error_json)).getD "(null)")⟩)
      | none => (0, none)

/-- The source's `watchman_watch`: send `["watch", path]` (its outcome
is the `send_ok` parameter; the path does not influence the decode), then
run the generic response validation. -/
def watchman_watch (send_ok : Bool) (loadf_result : Option json_t)
    (next_byte : Option Char) (jerror_text : String) :
    Int × Option watchman_error_t :=
  if ¬ send_ok then (1, some ⟨"Failed to send simple watchman command"⟩)
  else watchman_read_and_handle_errors loadf_result next_byte jerror_text

/-! The result decoders, modelled from the point where the response
value has been read: each takes the `json_t` the successful
`watchman_read` produced. -/

/-- `watchman_watch_list_t`, modelled from the spec (struct declared in
the missing header): `nr` roots.  The source callocs the `roots` array
and fills entries one by one, so a slot is `Option String`, `none`
standing for a NULL slot never written. -/
structure watchman_watch_list_t where
  nr : Nat
  roots : List (Option String)
deriving DecidableEq, Repr

/-- The per-root loop of `watchman_watch_list`: each array element must
be a string and is strdup'd into its slot; a non-string element triggers
`JSON_ASSERT`'s `goto done`, leaving its own slot and every later slot
at the calloc NULL. -/
def watch_list_roots : List json_t → List (Option String) × Option watchman_error_t
  | [] => ([], none)
  | r :: rest =>
    if json_is_string (some r) then
      let tail := watch_list_roots rest
      (json_string_value (some r) :: tail.1, tail.2)
    else
      (none :: rest.map (fun _ => (none : Option String)),
       some ⟨"Got non-string root from watch-list " ++ json_dumps r⟩)

/-- The decode phase of the source's `watchman_watch_list`, given the
response value `obj`.  The C control flow: the two shape checks fire
before `res` is allocated, so their `goto done` returns NULL; once `res`
is allocated (`nr` set, `roots` calloc'd), a failing root check jumps to
`done`, which returns `res` as it stands — the partially filled list —
while the error record is also set. -/
def watchman_watch_list_decode (obj : json_t) :
    Option watchman_watch_list_t × Option watchman_error_t :=
  if ¬ json_is_object (some obj) then
    (none, some ⟨"Got bogus value from watch-list " ++ json_dumps obj⟩)
  else
    let roots := json_object_get obj "roots"
    if ¬ json_is_array roots then
      (none, some ⟨"Got bogus value from watch-list " ++ json_dumps_opt roots⟩)
    else
      let elems := json_array_elems roots
      let filled := watch_list_roots elems
      (some ⟨elems.length, filled.1⟩, filled.2)

/-- `watchman_stat_t`, modelled from the spec (struct declared in the
missing header): §3's Stat record `{name, exists, mode, newer, size}`.
The decoder callocs the array, so every field other than `name` defaults
to the zero of its type. -/
structure watchman_stat_t where
  name : String
  exists_ : Bool := false
  mode : Int := 0
  newer : Bool := false
  size : Int := 0
deriving DecidableEq, Repr

/-- One iteration of the stat loop in `watchman_do_query` (source lines
478–512): a bare string element becomes a name-only stat; otherwise the
element must be an object with a string `name`, and `exists`, `mode`,
`new` are read when present.  Note the final block: when a `size` key is
present the source assigns `json_integer_value(size)` to `stat->newer`
(a bool field, so the C conversion is "nonzero"), and never writes
`stat->size`. -/
def decode_stat (statobj : json_t) : Except watchman_error_t watchman_stat_t :=
  if json_is_string (some statobj) then
    .ok { name := (json_string_value (some statobj)).getD "" }
  else if ¬ json_is_object (some statobj) then
    .error ⟨"must be object: " ++ json_dumps statobj⟩
  else
    let name := json_object_get statobj "name"
    if ¬ json_is_string name then
      .error ⟨"name must be string: " ++ json_dumps_opt name⟩
    else
      let exists_v := json_object_get statobj "exists"
      let mode_v := json_object_get statobj "mode"
      let newer_v := json_object_get statobj "new"
      let size_v := json_object_get statobj "size"
      .ok
        { name := (json_string_value name).getD ""
          exists_ := if exists_v.isSome then json_is_true exists_v else false
          mode := if mode_v.isSome then json_integer_value mode_v else 0
          newer :=
            if size_v.isSome then json_integer_value size_v ≠ 0
            else if newer_v.isSome then json_is_true newer_v else false
          size := 0 }

/-- The stat loop over the whole `files` array; the first failing
element aborts the loop via `goto done`. -/
def decode_stats : List json_t → Except watchman_error_t (List watchman_stat_t)
  | [] => .ok []
  | s :: rest => do
    let stat ← decode_stat s
    let stats ← decode_stats rest
    .ok (stat :: stats)

/-- `watchman_query_result_t`, modelled from the spec (struct declared
in the missing header): §3's QueryResult. -/
structure watchman_query_result_t where
  nr : Nat
  stats : List watchman_stat_t
  version : String
  clock : String
  is_fresh_instance : Bool
deriving DecidableEq, Repr

/-- The decode phase of the source's `watchman_do_query`, given the
response value `obj`.  Every `JSON_ASSERT` failure jumps to `done`,
which frees the partially built `res` (`watchman_free_query_result`) and
returns the still-NULL `result`; only the final success path assigns
`result = res`.  So the C function can never return a partial result:
the pair here is (NULL-or-result, error-if-any). -/
def watchman_do_query_decode (obj : json_t) :
    Option watchman_query_result_t × Option watchman_error_t :=
  if ¬ json_is_object (some obj) then
    (none, some ⟨"Failed to send watchman query " ++ json_dumps obj⟩)
  else
    let files := json_object_get obj "files"
    if ¬ json_is_array files then
      (none, some ⟨"Bad files " ++ json_dumps_opt files⟩)
    else
      match decode_stats (json_array_elems files) with
      | .error e => (none, some e)
      | .ok stats =>
        let version := json_object_get obj "version"
        if ¬ json_is_string version then
          (none, some ⟨"Bad version " ++ json_dumps_opt version⟩)
        else
          let clock := json_object_get obj "clock"
          if ¬ json_is_string clock then
            (none, some ⟨"Bad clock " ++ json_dumps_opt clock⟩)
          else
            let fresh := json_object_get obj "is_fresh_instance"
            if ¬ json_is_boolean fresh then
              (none, some ⟨"Bad is_fresh_instance " ++ json_dumps_opt fresh⟩)
            else
              (some
                { nr := json_array_size files
                  stats := stats
                  version := (json_string_value version).getD ""
                  clock := (json_string_value clock).getD ""
                  is_fresh_instance := json_is_true fresh }, none)

/-! Theorems about the claims. -/

/-- Claim C2: the claim states that compiling a Since expression with a
set clockspec appends the clockspec name "oclock" / "mtime" / "ctime".
The source instead indexes the `ty_str` table with the clockspec enum
value, so the appended tag is `ty_str[1]` = "anyof", `ty_str[2]` =
"not", `ty_str[3]` = "true"; the `clockspec_str` table holding the
intended names is declared but never used by `since_to_json`.  The
two-element form for an unset clockspec does match the claim. -/
theorem since_compile_emits_ty_str_names :
    to_json (watchman_since_expression "c:1:2" .oclock) =
      .jarray [.jstring "since", .jstring "c:1:2", .jstring "anyof"] ∧
    to_json (watchman_since_expression "c:1:2" .mtime) =
      .jarray [.jstring "since", .jstring "c:1:2", .jstring "not"] ∧
    to_json (watchman_since_expression_time_t 100 .ctime) =
      .jarray [.jstring "since", .jinteger 100, .jstring "true"] ∧
    to_json (watchman_since_expression "c:1:2" .specDefault) =
      .jarray [.jstring "since", .jstring "c:1:2"] ∧
    clockspec_str.getD (clockspec_index .oclock) none = some "oclock" ∧
    ("anyof" : String) ≠ "oclock" :=
  ⟨rfl, rfl, rfl, rfl, rfl, by decide⟩

/-- Claim C3: the Not constructor's body is `return ;` — it builds no
node and returns nothing, so the first half of the claim fails on the
code (the spec itself flags this as the reference defect).  The compile
half of the claim does hold of `to_json`: a Not node compiles to
`["not", compile(child)]`. -/
theorem not_constructor_returns_nothing :
    watchman_not_expression watchman_true_expression = none ∧
    (∀ e : watchman_expression_t, watchman_not_expression e = none) ∧
    to_json (.wnot .wtrue) = .jarray [.jstring "not", .jarray [.jstring "true"]] ∧
    to_json (.wnot (.suffix "py")) =
      .jarray [.jstring "not", .jarray [.jstring "suffix", .jstring "py"]] :=
  ⟨rfl, fun _ => rfl, rfl, rfl⟩

/-- Claim C8: the compile shapes of Name nodes hold (single name as a
bare string, several names as an array, a set basename scope appended
last), but the names constructor never stores its basename argument —
the node keeps the calloc zero `noScope` — so the constructed-then-
compiled `Name(["a","b"], scope=wholename)` of the claim lacks the
trailing "wholename". -/
theorem names_constructor_drops_basename_scope :
    watchman_names_expression ["a", "b"] .wholename =
      some (.name ["a", "b"] .noScope) ∧
    (watchman_names_expression ["a", "b"] .wholename).map to_json =
      some (.jarray [.jstring "name", .jarray [.jstring "a", .jstring "b"]]) ∧
    to_json (.name ["a", "b"] .wholename) =
      .jarray [.jstring "name", .jarray [.jstring "a", .jstring "b"],
        .jstring "wholename"] ∧
    (watchman_name_expression "a" .noScope).map to_json =
      some (.jarray [.jstring "name", .jstring "a"]) ∧
    (watchman_inames_expression ["a", "b"] .wholename).map to_json =
      some (.jarray [.jstring "iname", .jarray [.jstring "a", .jstring "b"]]) :=
  ⟨rfl, rfl, rfl, rfl, rfl⟩

/-- Claim C10: the AllOf/AnyOf and Name/IName constructors reject an
empty child or name list at construction time — `assert(nr)` aborts
before any node is produced (`none` here) — and accept any non-empty
list. -/
theorem union_and_names_constructors_reject_empty :
    watchman_allof_expression [] = none ∧
    watchman_anyof_expression [] = none ∧
    (∀ b, watchman_names_expression [] b = none ∧
          watchman_inames_expression [] b = none) ∧
    (∀ l : List watchman_expression_t, l ≠ [] →
      (watchman_allof_expression l).isSome = true ∧
      (watchman_anyof_expression l).isSome = true) ∧
    (∀ (ns : List String) (b : watchman_basename), ns ≠ [] →
      (watchman_names_expression ns b).isSome = true ∧
      (watchman_inames_expression ns b).isSome = true) := by
  refine ⟨rfl, rfl, fun b => ⟨rfl, rfl⟩, fun l hl => ?_, fun ns b hns => ?_⟩
  · constructor <;>
      simp [watchman_allof_expression, watchman_anyof_expression,
        List.isEmpty_iff, hl]
  · constructor <;>
      simp [watchman_names_expression, watchman_inames_expression,
        List.isEmpty_iff, hns]

/-- Witness for C10's non-emptiness hypotheses at concrete inputs. -/
theorem union_and_names_constructors_reject_empty_witness :
    watchman_allof_expression [] = none ∧
    (watchman_allof_expression [watchman_true_expression]).isSome = true ∧
    (watchman_names_expression ["a"] .noScope).isSome = true :=
  ⟨union_and_names_constructors_reject_empty.1,
   (union_and_names_constructors_reject_empty.2.2.2.1
      [watchman_true_expression] (List.cons_ne_nil _ _)).1,
   (union_and_names_constructors_reject_empty.2.2.2.2
      ["a"] .noScope (List.cons_ne_nil _ _)).1⟩

/-- The doubling loop of `fields_to_json` emits exactly the table
entries whose mask bit is set, in table order. -/
theorem fields_loop_eq_filter (fields : Nat) :
    ∀ (tbl : List String) (mask : Nat),
      fields_loop fields mask tbl =
        ((mask_pairs mask tbl).filter (fun p => fields &&& p.1 != 0)).map
          (fun p => json_t.jstring p.2) := by
  intro tbl
  induction tbl with
  | nil => intro mask; simp [fields_loop, mask_pairs]
  | cons s rest ih =>
    intro mask
    simp only [fields_loop, mask_pairs, List.filter_cons]
    by_cases hbit : fields &&& mask != 0
    · simp [hbit, ih]
    · simp [hbit, ih]

/-- The masks the loop of `fields_to_json` walks `fields_str` with are
exactly the declaration-order table. -/
theorem mask_pairs_fields_str : mask_pairs 1 fields_str = field_decl_table := by
  decide

/-- Claim C9: `fields_to_json` emits the names of the set bits in the
fixed declaration order of `fields_str`, for every mask — and hence
independently of the order in which the bits were or-ed together — and
in particular NAME together with EXISTS emits `["name", "exists"]`
whichever way the two flags are combined. -/
theorem fields_to_json_declaration_order :
    (∀ fields : Nat, fields_to_json fields =
      .jarray ((field_decl_table.filter (fun p => fields &&& p.1 != 0)).map
        (fun p => json_t.jstring p.2))) ∧
    fields_to_json (WATCHMAN_FIELD_NAME ||| WATCHMAN_FIELD_EXISTS) =
      .jarray [.jstring "name", .jstring "exists"] ∧
    fields_to_json (WATCHMAN_FIELD_EXISTS ||| WATCHMAN_FIELD_NAME) =
      .jarray [.jstring "name", .jstring "exists"] := by
  refine ⟨fun fields => ?_, rfl, rfl⟩
  rw [fields_to_json, fields_loop_eq_filter, mask_pairs_fields_str]

/-- Claim C7: reading a reply parses one JSON value and then demands a
newline as the very next byte.  If the parse produced nothing, or the
next byte is not a newline (or the stream ended), the caller gets NULL
plus an error — any parsed value is dropped; when a value parses and the
newline follows, the value is returned with no error. -/
theorem read_fails_without_value_or_newline
    (loadf_result : Option json_t) (next_byte : Option Char)
    (jerror_text : String)
    (h : loadf_result = none ∨ next_byte ≠ some '\n') :
    (watchman_read loadf_result next_byte jerror_text).1 = none ∧
    (watchman_read loadf_result next_byte jerror_text).2.isSome = true ∧
    (∀ j : json_t, watchman_read (some j) (some '\n') jerror_text = (some j, none)) := by
  refine ⟨?_, ?_, fun j => rfl⟩ <;>
    · unfold watchman_read
      by_cases hn : next_byte = some '\n'
      · rcases h with h | h
        · subst h hn; simp
        · exact absurd hn h
      · simp [hn]

/-- Witness for C7 at a parsed value followed by a non-newline byte. -/
theorem read_fails_without_value_or_newline_witness :
    ((some (json_t.jobject []) : Option json_t) = none ∨
      (some 'x' : Option Char) ≠ some '\n') ∧
    (watchman_read (some (.jobject [])) (some 'x') "").1 = none ∧
    (watchman_read (some (.jobject [])) (some 'x') "").2.isSome = true :=
  ⟨Or.inr (by decide),
   (read_fails_without_value_or_newline (some (.jobject [])) (some 'x') ""
      (Or.inr (by decide))).1,
   (read_fails_without_value_or_newline (some (.jobject [])) (some 'x') ""
      (Or.inr (by decide))).2.1⟩

/-- Counterexample to claim C6 as stated: for the daemon reply
`{"error":"root not watched"}` both the generic validation path and the
Watch path do fail, but the message of the resulting error is the
daemon text behind the fixed "Got error result from watchman : "
preamble — it is not exactly the daemon-supplied text. -/
theorem error_key_message_is_prefixed_not_bare :
    watchman_read_and_handle_errors
        (some (.jobject [("error", .jstring "root not watched")]))
        (some '\n') "" =
      (1, some ⟨"Got error result from watchman : root not watched"⟩) ∧
    watchman_watch true
        (some (.jobject [("error", .jstring "root not watched")]))
        (some '\n') "" =
      (1, some ⟨"Got error result from watchman : root not watched"⟩) ∧
    ("Got error result from watchman : root not watched" : String) ≠
      "root not watched" :=
  ⟨rfl, rfl, by decide⟩

/-- Claim C6 as amended: for every response object carrying a string
key `error`, both the generic validation path and the Watch path fail,
with an error whose message embeds the daemon-supplied text exactly,
behind the fixed preamble "Got error result from watchman : ". -/
theorem error_key_fails_with_embedded_daemon_text
    (obj : json_t) (s jerror_text : String)
    (hobj : json_is_object (some obj) = true)
    (herr : json_object_get obj "error" = some (.jstring s)) :
    watchman_read_and_handle_errors (some obj) (some '\n') jerror_text =
      (1, some ⟨"Got error result from watchman : " ++ s⟩) ∧
    watchman_watch true (some obj) (some '\n') jerror_text =
      (1, some ⟨"Got error result from watchman : " ++ s⟩) := by
  have hmain : watchman_read_and_handle_errors (some obj) (some '\n') jerror_text =
      (1, some ⟨"Got error result from watchman : " ++ s⟩) := by
    unfold watchman_read_and_handle_errors watchman_read
    simp [hobj, herr, json_string_value]
  exact ⟨hmain, by unfold watchman_watch; simpa using hmain⟩

/-- Witness for C6's amended claim at the reply
`{"error":"root not watched"}`. -/
theorem error_key_fails_with_embedded_daemon_text_witness :
    json_is_object (some (.jobject [("error", .jstring "root not watched")])) = true ∧
    json_object_get (.jobject [("error", .jstring "root not watched")]) "error" =
      some (.jstring "root not watched") ∧
    watchman_read_and_handle_errors
        (some (.jobject [("error", .jstring "root not watched")])) (some '\n') "" =
      (1, some ⟨"Got error result from watchman : " ++ "root not watched"⟩) :=
  ⟨rfl, rfl,
   (error_key_fails_with_embedded_daemon_text
      (.jobject [("error", .jstring "root not watched")]) "root not watched" ""
      rfl rfl).1⟩

/-- Claim C4: a watch-list reply whose `roots` array holds a non-string
element does produce a SchemaError — but the operation also returns the
partially filled watch list, because the `goto done` of the failing root
check returns the already-allocated `res` instead of freeing it and
returning NULL: at `{"roots":["a", 42]}` the caller receives both an
error and a two-slot list whose second slot is the calloc NULL. -/
theorem watch_list_nonstring_root_partial_and_error :
    (watchman_watch_list_decode
        (.jobject [("roots", .jarray [.jstring "a", .jinteger 42])])).1 =
      some { nr := 2, roots := [some "a", none] } ∧
    (watchman_watch_list_decode
        (.jobject [("roots", .jarray [.jstring "a", .jinteger 42])])).2.isSome = true :=
  ⟨rfl, rfl⟩

/-- Claim C1: decoding the claim's `files` array (inside an otherwise
well-formed reply).  The bare string becomes a name-only stat as
claimed, but for the object entry the source assigns
`json_integer_value(size)` to `stat->newer` and never writes
`stat->size`: the decoded entry has `newer` true (though no `new` key
was present) and `size` still 0, not 42. -/
theorem query_decode_stores_size_into_newer :
    watchman_do_query_decode (.jobject
        [("version", .jstring "4.9.0"), ("clock", .jstring "c:1:2"),
         ("is_fresh_instance", .jbool false),
         ("files", .jarray [.jstring "a.txt",
            .jobject [("name", .jstring "b.txt"), ("exists", .jbool true),
                      ("size", .jinteger 42)]])]) =
      (some { nr := 2,
              stats := [{ name := "a.txt" },
                        { name := "b.txt", exists_ := true, newer := true,
                          size := 0 }],
              version := "4.9.0", clock := "c:1:2",
              is_fresh_instance := false }, none) ∧
    decode_stat (.jobject [("name", .jstring "b.txt"), ("exists", .jbool true),
        ("size", .jinteger 42)]) =
      .ok { name := "b.txt", exists_ := true, mode := 0, newer := true,
            size := 0 } :=
  ⟨rfl, rfl⟩

/-- Claim C5: whenever `version` or `clock` is absent or not a string,
or `is_fresh_instance` is absent or not a bool, the query decode
produces an error and no result — the partial result built so far is
freed on the `done` path and the still-NULL `result` is returned, so
there is no partial-result return. -/
theorem query_decode_bad_header_fields_yield_error_and_no_result
    (obj : json_t)
    (h : json_is_string (json_object_get obj "version") = false ∨
         json_is_string (json_object_get obj "clock") = false ∨
         json_is_boolean (json_object_get obj "is_fresh_instance") = false) :
    (watchman_do_query_decode obj).1 = none ∧
    (watchman_do_query_decode obj).2.isSome = true := by
  suffices hs : ∃ e, watchman_do_query_decode obj = (none, some e) by
    obtain ⟨e, he⟩ := hs
    rw [he]
    exact ⟨rfl, rfl⟩
  simp only [watchman_do_query_decode]
  split
  · exact ⟨_, rfl⟩
  · split
    · exact ⟨_, rfl⟩
    · split
      · exact ⟨_, rfl⟩
      · split
        · exact ⟨_, rfl⟩
        · split
          · exact ⟨_, rfl⟩
          · split
            · exact ⟨_, rfl⟩
            · rcases h with h | h | h <;> simp_all

/-- Witness for C5 at a reply missing its `clock` key. -/
theorem query_decode_bad_header_fields_witness :
    (json_is_string (json_object_get
        (.jobject [("files", .jarray []), ("version", .jstring "4.9.0"),
                   ("is_fresh_instance", .jbool true)]) "version") = false ∨
     json_is_string (json_object_get
        (.jobject [("files", .jarray []), ("version", .jstring "4.9.0"),
                   ("is_fresh_instance", .jbool true)]) "clock") = false ∨
     json_is_boolean (json_object_get
        (.jobject [("files", .jarray []), ("version", .jstring "4.9.0"),
                   ("is_fresh_instance", .jbool true)]) "is_fresh_instance") = false) ∧
    (watchman_do_query_decode
        (.jobject [("files", .jarray []), ("version", .jstring "4.9.0"),
                   ("is_fresh_instance", .jbool true)])).1 = none ∧
    (watchman_do_query_decode
        (.jobject [("files", .jarray []), ("version", .jstring "4.9.0"),
                   ("is_fresh_instance", .jbool true)])).2.isSome = true :=
  ⟨Or.inr (Or.inl rfl),
   query_decode_bad_header_fields_yield_error_and_no_result
     (.jobject [("files", .jarray []), ("version", .jstring "4.9.0"),
                ("is_fresh_instance", .jbool true)])
     (Or.inr (Or.inl rfl))⟩

end Libwatchman
